import Mathlib

/-!
Verification development for the WebGL device core of the cocos GFX layer
(`src/cocos/core/gfx/webgl/webgl-device.ts`).  The TypeScript class
`WebGLDevice` is shallowly embedded: native-context effects (the GL calls,
the extension lookups, the platform identity queries) are passed in as
explicit data, and each method becomes a pure Lean function on an explicit
state.  Handles returned by `gl.getExtension` are modelled as `Option Nat`
(`none` is the null handle).
-/

/-- GFX pixel formats, restricted to the constructors the device file uses
(`GFXFormat.RGBA8`, `D16`, `D16S8`, `D24`, `D24S8` from `../define`). -/
inductive GFXFormat where
  | UNKNOWN
  | RGBA8
  | D16
  | D16S8
  | D24
  | D24S8
deriving DecidableEq

/-- The depth-stencil format derivation of `WebGLDevice.initialize`
(webgl-device.ts lines 286-298): a pure function of the queried
depth/stencil bit counts. -/
def depthStencilFormat (depthBits stencilBits : Int) : GFXFormat :=
  if depthBits = 24 then
    if stencilBits = 8 then GFXFormat.D24S8 else GFXFormat.D24
  else
    if stencilBits = 8 then GFXFormat.D16S8 else GFXFormat.D16

/-- The fixed vendor-prefix list of `WebGLDevice.getExtension`
(webgl-device.ts line 740). -/
def extensionPrefixList : List String := ["", "WEBKIT_", "MOZ_"]

/-- The loop body of `WebGLDevice.getExtension`: walk the prefix list,
querying `gl.getExtension` (modelled as the function `f`) on each prefixed
name, and return the first non-null handle. -/
def getExtensionLoop (f : String → Option Nat) (ext : String) : List String → Option Nat
  | [] => none
  | p :: ps =>
    match f (p ++ ext) with
    | some h => some h
    | none => getExtensionLoop f ext ps

/-- `WebGLDevice.getExtension` (webgl-device.ts lines 739-748): resolve a
logical extension name through the fixed prefix list, first match wins,
null if nothing resolves. -/
def getExtension (f : String → Option Nat) (ext : String) : Option Nat :=
  getExtensionLoop f ext extensionPrefixList

/-- Operating systems distinguished by the quirk rules (`sys.OS_IOS`,
`sys.OS_ANDROID`; every other value behaves uniformly). -/
inductive OSKind where
  | IOS
  | ANDROID
  | OSOther
deriving DecidableEq

/-- Browser types distinguished by the quirk rules
(`sys.BROWSER_TYPE_UC`; every other value behaves uniformly). -/
inductive BrowserKind where
  | UC
  | BrowserOther
deriving DecidableEq

/-- The platform identity consulted by the quirk block of
`WebGLDevice.initialize` (webgl-device.ts lines 335-366) and the ALIPAY
depth-bits override (line 274): the compile-time constants from
`internal:constants`, the `sys` identity fields, and the runtime VAO
feature revision (`none` models an unavailable `loadRuntime`/`getFeature`
query). -/
structure PlatformIdentity where
  browserType : BrowserKind
  os : OSKind
  osMainVersion : Int
  isBYTEDANCE : Bool
  isRUNTIME_BASED : Bool
  isVIVO : Bool
  isWECHAT : Bool
  isALIPAY : Bool
  runtimeVAORevision : Option Int
deriving DecidableEq

/-- The VAO-availability test of the third quirk rule (webgl-device.ts
lines 350-351): the capability is treated as broken when the runtime
feature query is unavailable or reports a revision of at most zero. -/
def vaoRevisionBad (p : PlatformIdentity) : Bool :=
  match p.runtimeVAORevision with
  | none => true
  | some r => decide (r ≤ 0)

/-- The slice of device state the quirk block mutates: the three extension
handles it can force to null and the two behavioral flags it can set. -/
structure QuirkState where
  ANGLE_instanced_arrays : Option Nat
  WEBGL_depth_texture : Option Nat
  OES_vertex_array_object : Option Nat
  destroyShadersImmediately : Bool
  noCompressedTexSubImage2D : Bool
deriving DecidableEq

/-- The platform-specific hack block of `WebGLDevice.initialize`
(webgl-device.ts lines 335-366), rule by rule in source order. -/
def applyQuirks (p : PlatformIdentity) (s : QuirkState) : QuirkState :=
  let s1 := if p.browserType = BrowserKind.UC then
    { s with ANGLE_instanced_arrays := none } else s
  let s2 := if p.isBYTEDANCE = true ∧ p.os = OSKind.IOS then
    { s1 with WEBGL_depth_texture := none } else s1
  let s3 := if p.isRUNTIME_BASED = true ∧ p.isVIVO = false ∧ vaoRevisionBad p = true then
    { s2 with OES_vertex_array_object := none } else s2
  let s4 := if (p.os = OSKind.IOS ∧ p.osMainVersion ≤ 10) ∨
      (p.isWECHAT = true ∧ p.os = OSKind.ANDROID) then
    { s3 with destroyShadersImmediately := false } else s3
  if p.isWECHAT = true then
    { s4 with noCompressedTexSubImage2D := true } else s4

/-- The extension-handle table of `WebGLDevice` (webgl-device.ts lines
176-200), one nullable handle per recognized extension. -/
structure ExtensionHandles where
  WEBGL_debug_renderer_info : Option Nat := none
  EXT_texture_filter_anisotropic : Option Nat := none
  EXT_frag_depth : Option Nat := none
  EXT_shader_texture_lod : Option Nat := none
  EXT_sRGB : Option Nat := none
  OES_vertex_array_object : Option Nat := none
  EXT_color_buffer_half_float : Option Nat := none
  WEBGL_color_buffer_float : Option Nat := none
  WEBGL_compressed_texture_etc1 : Option Nat := none
  WEBGL_compressed_texture_etc : Option Nat := none
  WEBGL_compressed_texture_pvrtc : Option Nat := none
  WEBGL_compressed_texture_astc : Option Nat := none
  WEBGL_compressed_texture_s3tc : Option Nat := none
  WEBGL_compressed_texture_s3tc_srgb : Option Nat := none
  WEBGL_debug_shaders : Option Nat := none
  WEBGL_draw_buffers : Option Nat := none
  WEBGL_lose_context : Option Nat := none
  WEBGL_depth_texture : Option Nat := none
  OES_texture_half_float : Option Nat := none
  OES_texture_half_float_linear : Option Nat := none
  OES_texture_float : Option Nat := none
  OES_texture_float_linear : Option Nat := none
  OES_standard_derivatives : Option Nat := none
  OES_element_index_uint : Option Nat := none
  ANGLE_instanced_arrays : Option Nat := none
deriving DecidableEq

/-- The extension-resolution block of `WebGLDevice.initialize`
(webgl-device.ts lines 254 and 310-333): every recognized logical
capability resolved through `getExtension`. -/
def resolveHandles (f : String → Option Nat) : ExtensionHandles where
  WEBGL_debug_renderer_info := getExtension f "WEBGL_debug_renderer_info"
  EXT_texture_filter_anisotropic := getExtension f "EXT_texture_filter_anisotropic"
  EXT_frag_depth := getExtension f "EXT_frag_depth"
  EXT_shader_texture_lod := getExtension f "EXT_shader_texture_lod"
  EXT_sRGB := getExtension f "EXT_sRGB"
  OES_vertex_array_object := getExtension f "OES_vertex_array_object"
  EXT_color_buffer_half_float := getExtension f "EXT_color_buffer_half_float"
  WEBGL_color_buffer_float := getExtension f "WEBGL_color_buffer_float"
  WEBGL_compressed_texture_etc1 := getExtension f "WEBGL_compressed_texture_etc1"
  WEBGL_compressed_texture_etc := getExtension f "WEBGL_compressed_texture_etc"
  WEBGL_compressed_texture_pvrtc := getExtension f "WEBGL_compressed_texture_pvrtc"
  WEBGL_compressed_texture_astc := getExtension f "WEBGL_compressed_texture_astc"
  WEBGL_compressed_texture_s3tc := getExtension f "WEBGL_compressed_texture_s3tc"
  WEBGL_compressed_texture_s3tc_srgb := getExtension f "WEBGL_compressed_texture_s3tc_srgb"
  WEBGL_debug_shaders := getExtension f "WEBGL_debug_shaders"
  WEBGL_draw_buffers := getExtension f "WEBGL_draw_buffers"
  WEBGL_lose_context := getExtension f "WEBGL_lose_context"
  WEBGL_depth_texture := getExtension f "WEBGL_depth_texture"
  OES_texture_half_float := getExtension f "OES_texture_half_float"
  OES_texture_half_float_linear := getExtension f "OES_texture_half_float_linear"
  OES_texture_float := getExtension f "OES_texture_float"
  OES_texture_float_linear := getExtension f "OES_texture_float_linear"
  OES_standard_derivatives := getExtension f "OES_standard_derivatives"
  OES_element_index_uint := getExtension f "OES_element_index_uint"
  ANGLE_instanced_arrays := getExtension f "ANGLE_instanced_arrays"

/-- The feature-flag vector of the device (`this._features`), restricted
to the flags the WebGL backend sets (webgl-device.ts lines 368-435).
`_features.fill(false)` is the all-false default. -/
structure GFXFeatures where
  COLOR_FLOAT : Bool := false
  COLOR_HALF_FLOAT : Bool := false
  TEXTURE_FLOAT : Bool := false
  TEXTURE_HALF_FLOAT : Bool := false
  TEXTURE_FLOAT_LINEAR : Bool := false
  TEXTURE_HALF_FLOAT_LINEAR : Bool := false
  FORMAT_RGB8 : Bool := false
  FORMAT_D16 : Bool := false
  FORMAT_D24 : Bool := false
  FORMAT_D24S8 : Bool := false
  ELEMENT_INDEX_UINT : Bool := false
  INSTANCED_ARRAYS : Bool := false
  FORMAT_ETC1 : Bool := false
  FORMAT_ETC2 : Bool := false
  FORMAT_DXT : Bool := false
  FORMAT_PVRTC : Bool := false
  FORMAT_ASTC : Bool := false
deriving DecidableEq

/-- The feature-flag construction of `WebGLDevice.initialize`
(webgl-device.ts lines 368-435): fill with false, then set each flag true
exactly when its backing (post-quirk) handle is non-null; `FORMAT_RGB8` is
unconditionally true; the three depth formats are gated on the
`WEBGL_depth_texture` handle. -/
def buildFeatures (h : ExtensionHandles) : GFXFeatures where
  COLOR_FLOAT := h.WEBGL_color_buffer_float.isSome
  COLOR_HALF_FLOAT := h.EXT_color_buffer_half_float.isSome
  TEXTURE_FLOAT := h.OES_texture_float.isSome
  TEXTURE_HALF_FLOAT := h.OES_texture_half_float.isSome
  TEXTURE_FLOAT_LINEAR := h.OES_texture_float_linear.isSome
  TEXTURE_HALF_FLOAT_LINEAR := h.OES_texture_half_float_linear.isSome
  FORMAT_RGB8 := true
  FORMAT_D16 := h.WEBGL_depth_texture.isSome
  FORMAT_D24 := h.WEBGL_depth_texture.isSome
  FORMAT_D24S8 := h.WEBGL_depth_texture.isSome
  ELEMENT_INDEX_UINT := h.OES_element_index_uint.isSome
  INSTANCED_ARRAYS := h.ANGLE_instanced_arrays.isSome
  FORMAT_ETC1 := h.WEBGL_compressed_texture_etc1.isSome
  FORMAT_ETC2 := h.WEBGL_compressed_texture_etc.isSome
  FORMAT_DXT := h.WEBGL_compressed_texture_s3tc.isSome
  FORMAT_PVRTC := h.WEBGL_compressed_texture_pvrtc.isSome
  FORMAT_ASTC := h.WEBGL_compressed_texture_astc.isSome

/-- The device-bound resource kinds the factory methods construct
(webgl-device.ts lines 569-679), one per concrete WebGL class; the
command-buffer factory picks between the primary and the plain class. -/
inductive ResourceKind where
  | commandBuffer
  | primaryCommandBuffer
  | buffer
  | texture
  | sampler
  | descriptorSet
  | shader
  | inputAssembler
  | renderPass
  | framebuffer
  | descriptorSetLayout
  | pipelineLayout
  | pipelineState
  | fence
  | queue
deriving DecidableEq

/-- A backend resource object as the factory returns it: its concrete
class and the device it was constructed against (`new WebGLX(this)`). -/
structure GFXResource where
  kind : ResourceKind
  device : Nat
deriving DecidableEq

/-- `GFXCommandBufferType` from `../define`, the dispatch tag of
`createCommandBuffer`. -/
inductive GFXCommandBufferType where
  | PRIMARY
  | SECONDARY
deriving DecidableEq

/-- `WebGLDevice.createCommandBuffer` (webgl-device.ts lines 569-575):
picks the concrete class from `info.type`, constructs it, invokes its
`initialize` (whose reported result — the `initOk` argument — is ignored),
and returns the object unconditionally. -/
def createCommandBuffer (dev : Nat) (ty : GFXCommandBufferType) (initOk : Bool) :
    Option GFXResource :=
  let k := if ty = GFXCommandBufferType.PRIMARY then ResourceKind.primaryCommandBuffer
    else ResourceKind.commandBuffer
  let _ := initOk
  some { kind := k, device := dev }

/-- `WebGLDevice.createBuffer` (webgl-device.ts lines 577-583): construct,
run the type-specific `initialize` (its reported result is the `initOk`
argument), return the object on success and null on failure. -/
def createBuffer (dev : Nat) (initOk : Bool) : Option GFXResource :=
  if initOk then some { kind := ResourceKind.buffer, device := dev } else none

/-- `WebGLDevice.createTexture` (webgl-device.ts lines 585-591), same
check-and-return pattern as `createBuffer`. -/
def createTexture (dev : Nat) (initOk : Bool) : Option GFXResource :=
  if initOk then some { kind := ResourceKind.texture, device := dev } else none

/-- `WebGLDevice.createSampler` (webgl-device.ts lines 593-599). -/
def createSampler (dev : Nat) (initOk : Bool) : Option GFXResource :=
  if initOk then some { kind := ResourceKind.sampler, device := dev } else none

/-- `WebGLDevice.createDescriptorSet` (webgl-device.ts lines 601-607). -/
def createDescriptorSet (dev : Nat) (initOk : Bool) : Option GFXResource :=
  if initOk then some { kind := ResourceKind.descriptorSet, device := dev } else none

/-- `WebGLDevice.createShader` (webgl-device.ts lines 609-615). -/
def createShader (dev : Nat) (initOk : Bool) : Option GFXResource :=
  if initOk then some { kind := ResourceKind.shader, device := dev } else none

/-- `WebGLDevice.createInputAssembler` (webgl-device.ts lines 617-623). -/
def createInputAssembler (dev : Nat) (initOk : Bool) : Option GFXResource :=
  if initOk then some { kind := ResourceKind.inputAssembler, device := dev } else none

/-- `WebGLDevice.createRenderPass` (webgl-device.ts lines 625-631). -/
def createRenderPass (dev : Nat) (initOk : Bool) : Option GFXResource :=
  if initOk then some { kind := ResourceKind.renderPass, device := dev } else none

/-- `WebGLDevice.createFramebuffer` (webgl-device.ts lines 633-639). -/
def createFramebuffer (dev : Nat) (initOk : Bool) : Option GFXResource :=
  if initOk then some { kind := ResourceKind.framebuffer, device := dev } else none

/-- `WebGLDevice.createDescriptorSetLayout` (webgl-device.ts lines 641-647). -/
def createDescriptorSetLayout (dev : Nat) (initOk : Bool) : Option GFXResource :=
  if initOk then some { kind := ResourceKind.descriptorSetLayout, device := dev } else none

/-- `WebGLDevice.createPipelineLayout` (webgl-device.ts lines 649-655). -/
def createPipelineLayout (dev : Nat) (initOk : Bool) : Option GFXResource :=
  if initOk then some { kind := ResourceKind.pipelineLayout, device := dev } else none

/-- `WebGLDevice.createPipelineState` (webgl-device.ts lines 657-663). -/
def createPipelineState (dev : Nat) (initOk : Bool) : Option GFXResource :=
  if initOk then some { kind := ResourceKind.pipelineState, device := dev } else none

/-- `WebGLDevice.createFence` (webgl-device.ts lines 665-671). -/
def createFence (dev : Nat) (initOk : Bool) : Option GFXResource :=
  if initOk then some { kind := ResourceKind.fence, device := dev } else none

/-- `WebGLDevice.createQueue` (webgl-device.ts lines 673-679). -/
def createQueue (dev : Nat) (initOk : Bool) : Option GFXResource :=
  if initOk then some { kind := ResourceKind.queue, device := dev } else none

/-- A default null texture as `initDevice` records it: the construction
parameters passed at webgl-device.ts lines 472-491 plus the result the
texture initializer reported and whether the zero-filled upload of lines
513-520 was issued. -/
structure NullTexture where
  width : Nat
  height : Nat
  layerCount : Nat
  initOk : Bool
  zeroUploaded : Bool
deriving DecidableEq

/-- Outcome of `canvas.getContext` inside the try block of
`WebGLDevice.initialize` (webgl-device.ts lines 218-245): the call can
throw, return null, or return a context. -/
inductive ContextOutcome where
  | throws
  | nullContext
  | ok
deriving DecidableEq

/-- The `IGFXDeviceInfo` configuration fields `WebGLDevice.initialize`
reads (`none` models an `undefined` optional field; the canvas dimensions
stand in for `info.canvasElm.width/height`). -/
structure IGFXDeviceInfo where
  canvasWidth : Nat := 0
  canvasHeight : Nat := 0
  isAntialias : Option Bool := none
  isPremultipliedAlpha : Option Bool := none
  devicePixelRatio : Option Nat := none
  nativeWidth : Option Nat := none
  nativeHeight : Option Nat := none
deriving DecidableEq

/-- The native environment `WebGLDevice.initialize` interacts with: the
context-acquisition outcome, the `gl.getExtension` map, the queried
depth/stencil bit counts, the platform identity, and the success values
the queue and null-texture initializers (defined outside this file)
report. -/
structure InitEnv where
  contextOutcome : ContextOutcome
  glGetExtension : String → Option Nat
  depthBits : Int
  stencilBits : Int
  platform : PlatformIdentity
  queueInitOk : Bool
  tex2DInitOk : Bool
  texCubeInitOk : Bool

/-- The slice of `WebGLDevice` state that `initialize` and `destroy`
touch, with the class-field initializers of webgl-device.ts lines 162-200
as defaults. -/
structure DeviceInitState where
  webGLRC : Bool := false
  isAntialias : Bool := true
  isPremultipliedAlpha : Bool := true
  useVAO : Bool := false
  destroyShadersImmediately : Bool := true
  noCompressedTexSubImage2D : Bool := false
  depthBits : Int := 0
  stencilBits : Int := 0
  devicePixelRatio : Nat := 1
  width : Nat := 0
  height : Nat := 0
  nativeWidth : Nat := 0
  nativeHeight : Nat := 0
  colorFmt : GFXFormat := GFXFormat.UNKNOWN
  depthStencilFmt : GFXFormat := GFXFormat.UNKNOWN
  handles : ExtensionHandles := {}
  features : GFXFeatures := {}
  statesInitialized : Bool := false
  queue : Option GFXResource := none
  nullTex2D : Option NullTexture := none
  nullTexCube : Option NullTexture := none
deriving DecidableEq

/-- JavaScript `v || dflt` on an optional numeric field: the default is
used when the field is undefined or zero (falsy). -/
def jsOrDefault (v : Option Nat) (dflt : Nat) : Nat :=
  match v with
  | none => dflt
  | some n => if n = 0 then dflt else n

/-- `WebGLDevice.initialize` (webgl-device.ts lines 202-523), embedded as
a function of the configuration and the native environment, returning the
boolean result together with the resulting device state.  Config fields
are applied first (lines 204-216); a throwing or null `getContext` returns
false (lines 237-245); otherwise the method runs identity/limit queries,
the ALIPAY depth-bits override (line 274), format derivation, extension
resolution, the quirk block, the feature-flag construction, `initStates`,
queue creation, and both null-texture constructions with their zero-filled
uploads, and returns true (line 522) — the queue and null-texture
initializer results are not consulted for the return value. -/
def initDevice (info : IGFXDeviceInfo) (env : InitEnv) : Bool × DeviceInitState :=
  let s0 : DeviceInitState := {}
  let s0 := { s0 with
    isAntialias := info.isAntialias.getD s0.isAntialias,
    isPremultipliedAlpha := info.isPremultipliedAlpha.getD s0.isPremultipliedAlpha }
  match env.contextOutcome with
  | ContextOutcome.throws => (false, s0)
  | ContextOutcome.nullContext => (false, s0)
  | ContextOutcome.ok =>
    let depthBits : Int := if env.platform.isALIPAY then 24 else env.depthBits
    let dpr := jsOrDefault info.devicePixelRatio 1
    let width := info.canvasWidth
    let height := info.canvasHeight
    let nativeWidth := max (jsOrDefault info.nativeWidth width) 0
    let nativeHeight := max (jsOrDefault info.nativeHeight height) 0
    let handles0 := resolveHandles env.glGetExtension
    let q0 : QuirkState := {
      ANGLE_instanced_arrays := handles0.ANGLE_instanced_arrays,
      WEBGL_depth_texture := handles0.WEBGL_depth_texture,
      OES_vertex_array_object := handles0.OES_vertex_array_object,
      destroyShadersImmediately := s0.destroyShadersImmediately,
      noCompressedTexSubImage2D := s0.noCompressedTexSubImage2D }
    let q1 := applyQuirks env.platform q0
    let handles1 := { handles0 with
      ANGLE_instanced_arrays := q1.ANGLE_instanced_arrays,
      WEBGL_depth_texture := q1.WEBGL_depth_texture,
      OES_vertex_array_object := q1.OES_vertex_array_object }
    (true, { s0 with
      webGLRC := true,
      depthBits := depthBits,
      stencilBits := env.stencilBits,
      devicePixelRatio := dpr,
      width := width,
      height := height,
      nativeWidth := nativeWidth,
      nativeHeight := nativeHeight,
      colorFmt := GFXFormat.RGBA8,
      depthStencilFmt := depthStencilFormat depthBits env.stencilBits,
      handles := handles1,
      destroyShadersImmediately := q1.destroyShadersImmediately,
      noCompressedTexSubImage2D := q1.noCompressedTexSubImage2D,
      features := buildFeatures handles1,
      useVAO := handles1.OES_vertex_array_object.isSome,
      statesInitialized := true,
      queue := createQueue 0 env.queueInitOk,
      nullTex2D := some {
        width := 2, height := 2, layerCount := 1,
        initOk := env.tex2DInitOk, zeroUploaded := true },
      nullTexCube := some {
        width := 2, height := 2, layerCount := 6,
        initOk := env.texCubeInitOk, zeroUploaded := true } })

/-- `WebGLDevice.destroy` (webgl-device.ts lines 525-545): each owned
default resource is destroyed and nulled only if present (the null guards
make the method total on every state `initialize` can leave behind), then
the extension list and the context handle are released. -/
def destroyDevice (s : DeviceInitState) : DeviceInitState :=
  let s1 := if s.nullTex2D.isSome then { s with nullTex2D := none } else s
  let s2 := if s1.nullTexCube.isSome then { s1 with nullTexCube := none } else s1
  let s3 := if s2.queue.isSome then { s2 with queue := none } else s2
  { s3 with webGLRC := false }

/-- The device state `WebGLDevice.resize` reads and writes
(webgl-device.ts lines 547-555): the owned canvas pixel dimensions, the
cached width/height, and an abstract count of already-allocated resources
that the method never touches (no reallocation happens here). -/
structure ResizeState where
  canvasWidth : Nat
  canvasHeight : Nat
  width : Nat
  height : Nat
  resources : Nat
deriving DecidableEq

/-- `WebGLDevice.resize` (webgl-device.ts lines 547-555): when either
dimension differs from the cached value, write the new dimensions to the
owned canvas and to the cache; otherwise do nothing. -/
def resize (width height : Nat) (s : ResizeState) : ResizeState :=
  if s.width ≠ width ∨ s.height ≠ height then
    { s with canvasWidth := width, canvasHeight := height,
             width := width, height := height }
  else s

/-- The per-frame counters of the default `WebGLQueue`
(`numDrawCalls`, `numInstances`, `numTris` read at webgl-device.ts lines
563-565). -/
structure WebGLQueueState where
  numDrawCalls : Nat
  numInstances : Nat
  numTris : Nat
deriving DecidableEq

/-- Modelled from the spec: `WebGLQueue.clear` (webgl-queue.ts is not
under src/) — per the spec, `present()` "clears the queue's per-frame
counters", so `clear` resets all three counters to zero. -/
def webGLQueueClear (_q : WebGLQueueState) : WebGLQueueState :=
  { numDrawCalls := 0, numInstances := 0, numTris := 0 }

/-- The device-level per-frame statistics `present` writes
(`_numDrawCalls`, `_numInstances`, `_numTris`). -/
structure DeviceStats where
  numDrawCalls : Nat
  numInstances : Nat
  numTris : Nat
deriving DecidableEq

/-- `WebGLDevice.present` (webgl-device.ts lines 561-567): copy the
accumulated counters of the default queue into the device stats, then
clear the queue. -/
def present (q : WebGLQueueState) (d : DeviceStats) : DeviceStats × WebGLQueueState :=
  let _ := d
  ({ numDrawCalls := q.numDrawCalls,
     numInstances := q.numInstances,
     numTris := q.numTris },
   webGLQueueClear q)

/-- The framebuffer binding state `copyFramebufferToBuffer` manipulates:
the State Cache mirror (`stateCache.glFramebuffer`) and the actual native
binding set by `gl.bindFramebuffer`; `none` is the default framebuffer. -/
structure FBState where
  cacheFramebuffer : Option Nat
  nativeFramebuffer : Option Nat
deriving DecidableEq

/-- The native GL calls the data-transfer operations can emit. -/
inductive GLCall where
  | bindFramebuffer (fb : Option Nat)
  | readPixels (x y w h : Int)
deriving DecidableEq

/-- The fields of a `GFXBufferTextureCopy` region that
`copyFramebufferToBuffer` reads (`texOffset.x/y`, `texExtent.width/height`
at webgl-device.ts lines 722-728). -/
structure GFXBufferTextureCopy where
  offsetX : Int
  offsetY : Int
  extentWidth : Int
  extentHeight : Int
deriving DecidableEq

/-- `WebGLDevice.copyFramebufferToBuffer` (webgl-device.ts lines 701-734),
restricted to its binding behavior: remember the framebuffer the State
Cache shows, bind the source framebuffer if the cache disagrees, issue one
`readPixels` per region in list order, then rebind the remembered
framebuffer if the cache no longer shows it; returns the final binding
state and the trace of native calls. -/
def copyFramebufferToBuffer (gpuFramebuffer : Option Nat)
    (regions : List GFXBufferTextureCopy) (s : FBState) :
    FBState × List GLCall :=
  let curFBO := s.cacheFramebuffer
  let step1 :=
    if s.cacheFramebuffer ≠ gpuFramebuffer then
      ({ s with nativeFramebuffer := gpuFramebuffer,
                cacheFramebuffer := gpuFramebuffer },
       [GLCall.bindFramebuffer gpuFramebuffer])
    else (s, [])
  let s1 := step1.1
  let readCalls := regions.map fun r =>
    GLCall.readPixels r.offsetX r.offsetY r.extentWidth r.extentHeight
  let step2 :=
    if s1.cacheFramebuffer ≠ curFBO then
      ({ s1 with nativeFramebuffer := curFBO, cacheFramebuffer := curFBO },
       [GLCall.bindFramebuffer curFBO])
    else (s1, [])
  (step2.1, step1.2 ++ readCalls ++ step2.2)

/-- `GFXRect` from `../define`, as passed to `blitFramebuffer`. -/
structure GFXRect where
  x : Int
  y : Int
  width : Int
  height : Int
deriving DecidableEq

/-- `GFXFilter` from `../define`, as passed to `blitFramebuffer`. -/
inductive GFXFilter where
  | NONE
  | POINT
  | LINEAR
  | ANISOTROPIC
deriving DecidableEq

/-- `WebGLDevice.blitFramebuffer` (webgl-device.ts lines 736-737): the
method body is empty, so the state is returned unchanged and no native
call is emitted. -/
def blitFramebuffer (src dst : Nat) (srcRect dstRect : GFXRect)
    (filter : GFXFilter) (s : FBState) : FBState × List GLCall :=
  let _ := (src, dst, srcRect, dstRect, filter)
  (s, [])

/-- A platform identity that triggers no quirk rule, used by the concrete
evaluations below. -/
def plainPlatform : PlatformIdentity where
  browserType := BrowserKind.BrowserOther
  os := OSKind.OSOther
  osMainVersion := 14
  isBYTEDANCE := false
  isRUNTIME_BASED := false
  isVIVO := false
  isWECHAT := false
  isALIPAY := false
  runtimeVAORevision := some 1

/-- A default configuration for the concrete evaluations below. -/
def cfg0 : IGFXDeviceInfo where
  canvasWidth := 300
  canvasHeight := 150

/-- An environment in which context acquisition succeeds but the 2D null
texture initializer reports failure. -/
def envTexFail : InitEnv where
  contextOutcome := ContextOutcome.ok
  glGetExtension := fun _ => none
  depthBits := 24
  stencilBits := 8
  platform := plainPlatform
  queueInitOk := true
  tex2DInitOk := false
  texCubeInitOk := true

/-- An environment in which every step succeeds; the linear-filtering
float extension resolves while the base float extension does not. -/
def envLinearOnly : InitEnv where
  contextOutcome := ContextOutcome.ok
  glGetExtension := fun nm =>
    if nm = "OES_texture_float_linear" then some 7 else none
  depthBits := 24
  stencilBits := 8
  platform := plainPlatform
  queueInitOk := true
  tex2DInitOk := true
  texCubeInitOk := true

/-- A `gl.getExtension` map exposing one name both unprefixed and under
the WEBKIT prefix, and another name only under the MOZ prefix. -/
def extEnvBoth : String → Option Nat := fun nm =>
  if nm = "OES_texture_float" then some 3
  else if nm = "WEBKIT_OES_texture_float" then some 4
  else if nm = "MOZ_EXT_sRGB" then some 5
  else none

/-- Shared shape of the twelve checked factory methods: the `if` pattern
returns the constructed object exactly when the initializer succeeded,
and the object is bound to the constructing device. -/
theorem ifSome_spec (dev : Nat) (ok : Bool) (k : ResourceKind) :
    ((if ok then some { kind := k, device := dev } else none : Option GFXResource).isSome = ok) ∧
    ∀ r, (if ok then some { kind := k, device := dev } else none : Option GFXResource) = some r →
      r.device = dev ∧ r.kind = k := by
  cases ok <;> simp

/-- C4: the derived depth-stencil format is a pure function of the queried
(depthBits, stencilBits) pair — (24,8) gives D24S8, (24,0) gives D24,
(16,8) gives D16S8, (16,0) gives D16, and any pair whose depth is not 24
falls through deterministically to the 16-bit rule (so (32,8) gives
D16S8); on every successful initialization the color format is fixed at
RGBA8 and the stored depth-stencil format is exactly this function of the
stored bit depths. -/
theorem depthStencilFormat_spec :
    depthStencilFormat 24 8 = GFXFormat.D24S8 ∧
    depthStencilFormat 24 0 = GFXFormat.D24 ∧
    depthStencilFormat 16 8 = GFXFormat.D16S8 ∧
    depthStencilFormat 16 0 = GFXFormat.D16 ∧
    depthStencilFormat 32 8 = GFXFormat.D16S8 ∧
    (∀ d s : Int, d ≠ 24 →
      depthStencilFormat d s = if s = 8 then GFXFormat.D16S8 else GFXFormat.D16) ∧
    (∀ (info : IGFXDeviceInfo) (env : InitEnv),
      env.contextOutcome = ContextOutcome.ok →
      (initDevice info env).2.colorFmt = GFXFormat.RGBA8 ∧
      (initDevice info env).2.depthStencilFmt =
        depthStencilFormat (initDevice info env).2.depthBits
          (initDevice info env).2.stencilBits) := by
  refine ⟨by decide, by decide, by decide, by decide, by decide, ?_, ?_⟩
  · intro d s hd
    rw [depthStencilFormat, if_neg hd]
  · intro info env h
    obtain ⟨co, f, db, sb, p, qok, t2, tc⟩ := env
    cases co
    · simp at h
    · simp at h
    · exact ⟨rfl, rfl⟩

/-- C4 witness: the fallback case evaluated at the unexpected pair (32,8)
and the fixed color format on a concrete successful initialization. -/
theorem depthStencilFormat_spec_witness :
    depthStencilFormat 32 8 = GFXFormat.D16S8 ∧
    (initDevice cfg0 envLinearOnly).2.colorFmt = GFXFormat.RGBA8 :=
  ⟨depthStencilFormat_spec.2.2.2.2.2.1 32 8 (by decide),
   (depthStencilFormat_spec.2.2.2.2.2.2 cfg0 envLinearOnly rfl).1⟩

/-- C5: for every logical extension name, `getExtension` tries the
unprefixed name first, then the `WEBKIT_` and `MOZ_` prefixes in that
fixed order, returning the first non-null handle; an unprefixed handle
always beats a prefixed one, and if no alias resolves the result is
null. -/
theorem getExtension_resolution :
    ∀ (f : String → Option Nat) (ext : String),
      (∀ h : Nat, f ext = some h → getExtension f ext = some h) ∧
      (f ext = none → ∀ h : Nat,
        f ("WEBKIT_" ++ ext) = some h → getExtension f ext = some h) ∧
      (f ext = none → f ("WEBKIT_" ++ ext) = none →
        getExtension f ext = f ("MOZ_" ++ ext)) ∧
      (f ext = none → f ("WEBKIT_" ++ ext) = none → f ("MOZ_" ++ ext) = none →
        getExtension f ext = none) := by
  intro f ext
  have e0 : ("" ++ ext : String) = ext := rfl
  refine ⟨?_, ?_, ?_, ?_⟩
  · intro h hf
    simp only [getExtension, extensionPrefixList, getExtensionLoop, e0, hf]
  · intro hf h hw
    simp only [getExtension, extensionPrefixList, getExtensionLoop, e0, hf, hw]
  · intro hf hw
    simp only [getExtension, extensionPrefixList, getExtensionLoop, e0, hf, hw]
    cases f ("MOZ_" ++ ext) <;> rfl
  · intro hf hw hm
    simp only [getExtension, extensionPrefixList, getExtensionLoop, e0, hf, hw, hm]

/-- C5 witness: on a concrete extension map, a name present both
unprefixed and under `WEBKIT_` resolves to the unprefixed handle, and a
name present only under `MOZ_` resolves to that prefixed handle. -/
theorem getExtension_resolution_witness :
    getExtension extEnvBoth "OES_texture_float" = some 3 ∧
    getExtension extEnvBoth "EXT_sRGB" = some 5 := by
  constructor
  · exact (getExtension_resolution extEnvBoth "OES_texture_float").1 3 (by decide)
  · have h := (getExtension_resolution extEnvBoth "EXT_sRGB").2.2.1
      (by decide) (by decide)
    rw [h]
    decide

/-- C6: `copyFramebufferToBuffer` leaves the framebuffer binding that the
State Cache showed before the call active again after completion — both
when the call changed the binding to perform the read and when the
binding already was the source framebuffer — and the final State Cache
entry agrees with the final native binding. -/
theorem copyFramebufferToBuffer_restores :
    ∀ (fb : Option Nat) (regions : List GFXBufferTextureCopy) (s : FBState),
      s.nativeFramebuffer = s.cacheFramebuffer →
      (copyFramebufferToBuffer fb regions s).1.cacheFramebuffer = s.cacheFramebuffer ∧
      (copyFramebufferToBuffer fb regions s).1.nativeFramebuffer = s.cacheFramebuffer ∧
      (copyFramebufferToBuffer fb regions s).1.nativeFramebuffer =
        (copyFramebufferToBuffer fb regions s).1.cacheFramebuffer := by
  intro fb regions s hinv
  by_cases hc : s.cacheFramebuffer = fb
  · simp [copyFramebufferToBuffer, hc, hinv]
  · have hc2 : fb ≠ s.cacheFramebuffer := fun e => hc e.symm
    simp [copyFramebufferToBuffer, hc, hc2, hinv]

/-- C6 witness: a concrete call in the binding-changed case (cache shows
the default framebuffer, source framebuffer 5) ends with the default
framebuffer cached and natively bound again. -/
theorem copyFramebufferToBuffer_restores_witness :
    (copyFramebufferToBuffer (some 5) []
      { cacheFramebuffer := none, nativeFramebuffer := none }).1.cacheFramebuffer = none ∧
    (copyFramebufferToBuffer (some 5) []
      { cacheFramebuffer := none, nativeFramebuffer := none }).1.nativeFramebuffer = none :=
  have h := copyFramebufferToBuffer_restores (some 5) []
    { cacheFramebuffer := none, nativeFramebuffer := none } rfl
  ⟨h.1, h.2.1⟩

/-- C7: `present` copies the draw-call, instance and triangle counters
accumulated on the default queue into the device-level stats and clears
the per-frame counters of the queue, so a stats read immediately after
`present` returns exactly the accumulated counts and a second `present`
with no intervening draws yields all-zero device stats. -/
theorem present_stats_contract :
    ∀ (q : WebGLQueueState) (d : DeviceStats),
      (present q d).1.numDrawCalls = q.numDrawCalls ∧
      (present q d).1.numInstances = q.numInstances ∧
      (present q d).1.numTris = q.numTris ∧
      (present q d).2 = webGLQueueClear q ∧
      (present (present q d).2 (present q d).1).1.numDrawCalls = 0 ∧
      (present (present q d).2 (present q d).1).1.numInstances = 0 ∧
      (present (present q d).2 (present q d).1).1.numTris = 0 :=
  fun _q _d => ⟨rfl, rfl, rfl, rfl, rfl, rfl, rfl⟩

/-- C8: for every platform identity, applying the Platform Quirk Table a
second time to the handle table and behavioral flags it produced yields
exactly the same handle/flag state as applying it once. -/
theorem applyQuirks_idempotent :
    ∀ (p : PlatformIdentity) (s : QuirkState),
      applyQuirks p (applyQuirks p s) = applyQuirks p s := by
  intro p s
  simp only [applyQuirks]
  split_ifs <;> rfl

/-- C9: `resize` is a no-op when the arguments equal the cached width and
height — in particular a second identical call mutates no state — and
when they differ it updates exactly the owned canvas pixel dimensions and
the cached width/height, leaving existing resources untouched. -/
theorem resize_contract :
    ∀ (w h : Nat) (s : ResizeState),
      resize w h (resize w h s) = resize w h s ∧
      (s.width = w ∧ s.height = h → resize w h s = s) ∧
      (¬(s.width = w ∧ s.height = h) →
        (resize w h s).width = w ∧ (resize w h s).height = h ∧
        (resize w h s).canvasWidth = w ∧ (resize w h s).canvasHeight = h) ∧
      (resize w h s).resources = s.resources := by
  intro w h s
  by_cases hc : s.width ≠ w ∨ s.height ≠ h
  · have h1 : resize w h s =
        { s with canvasWidth := w, canvasHeight := h, width := w, height := h } := by
      rw [resize, if_pos hc]
    refine ⟨?_, ?_, ?_, ?_⟩
    · rw [h1, resize, if_neg]
      simp
    · intro hcon
      rcases hc with hd | hd
      · exact absurd hcon.1 hd
      · exact absurd hcon.2 hd
    · intro _
      rw [h1]
      exact ⟨rfl, rfl, rfl, rfl⟩
    · rw [h1]
  · push_neg at hc
    have heq : s.width = w ∧ s.height = h := ⟨hc.1, hc.2⟩
    have h1 : resize w h s = s := by
      rw [resize, if_neg]
      intro hcontra
      rcases hcontra with hd | hd
      · exact hd heq.1
      · exact hd heq.2
    refine ⟨by rw [h1, h1], fun _ => h1, ?_, by rw [h1]⟩
    intro hcontra
    exact absurd heq hcontra

/-- C9 witness: a call with dimensions matching the cache returns the
state unchanged, and a call with differing dimensions updates the cached
width. -/
theorem resize_contract_witness :
    resize 2 3 { canvasWidth := 9, canvasHeight := 9, width := 2, height := 3, resources := 5 } =
      { canvasWidth := 9, canvasHeight := 9, width := 2, height := 3, resources := 5 } ∧
    (resize 7 8 { canvasWidth := 0, canvasHeight := 0, width := 1, height := 1, resources := 4 }).width = 7 :=
  ⟨(resize_contract 2 3
      { canvasWidth := 9, canvasHeight := 9, width := 2, height := 3, resources := 5 }).2.1
    ⟨rfl, rfl⟩,
   ((resize_contract 7 8
      { canvasWidth := 0, canvasHeight := 0, width := 1, height := 1, resources := 4 }).2.2.1
    (by decide)).1⟩

/-- C10: `blitFramebuffer` is a no-op for every combination of source and
destination framebuffer, rectangles and filter: it emits no native call
and returns the binding state unchanged. -/
theorem blitFramebuffer_noop :
    ∀ (src dst : Nat) (srcRect dstRect : GFXRect) (filter : GFXFilter) (s : FBState),
      blitFramebuffer src dst srcRect dstRect filter s = (s, []) :=
  fun _src _dst _sr _dr _f _s => rfl

/-- C1 counterexample: with a successfully acquired context but a 2D null
texture whose initializer reports failure, `initialize` still returns
true — refuting the claim that failure to construct a null texture is
fatal and makes `initialize` return false. -/
theorem initDevice_nullTexFail_still_true :
    (initDevice cfg0 envTexFail).1 = true ∧
    envTexFail.tex2DInitOk = false ∧
    ((initDevice cfg0 envTexFail).2.nullTex2D.map NullTexture.initOk) = some false :=
  ⟨rfl, rfl, rfl⟩

/-- C1 (amended): `initialize` returns false exactly when context
acquisition fails (the `getContext` call throws or yields null); once a
context is acquired every remaining step runs and the method returns
true, regardless of the results the queue and null-texture initializers
report; in every case the state left behind is one `destroy` handles
safely through its null guards, ending with no owned queue or null
textures and the context released. -/
theorem initDevice_true_iff_context :
    ∀ (info : IGFXDeviceInfo) (env : InitEnv),
      ((initDevice info env).1 = true ↔ env.contextOutcome = ContextOutcome.ok) ∧
      (destroyDevice (initDevice info env).2).nullTex2D = none ∧
      (destroyDevice (initDevice info env).2).nullTexCube = none ∧
      (destroyDevice (initDevice info env).2).queue = none ∧
      (destroyDevice (initDevice info env).2).webGLRC = false := by
  intro info env
  obtain ⟨co, f, db, sb, p, qok, t2, tc⟩ := env
  cases co <;> cases qok <;>
    simp [initDevice, destroyDevice, createQueue]

/-- C1 witness: the amended equivalence applied to a concrete environment
whose context acquisition succeeds. -/
theorem initDevice_true_iff_context_witness :
    (initDevice cfg0 envTexFail).1 = true :=
  (initDevice_true_iff_context cfg0 envTexFail).1.mpr rfl

/-- C2 counterexample: `createCommandBuffer` invoked with an initializer
that reports failure still returns the constructed (non-null) command
buffer — refuting the claim that every factory call returns a null result
when its initializer fails. -/
theorem createCommandBuffer_failure_not_null :
    createCommandBuffer 0 GFXCommandBufferType.PRIMARY false =
      some { kind := ResourceKind.primaryCommandBuffer, device := 0 } ∧
    (createCommandBuffer 0 GFXCommandBufferType.PRIMARY false).isSome = true :=
  ⟨rfl, rfl⟩

/-- C2 (amended): for thirteen of the fourteen resource types — buffer,
texture, sampler, descriptor set, descriptor-set layout, pipeline layout,
pipeline state, shader, input assembler, render pass, framebuffer, fence
and queue — the create call constructs a new backend object bound to this
device, invokes its `initialize(config)`, and returns the object if and
only if that initializer reports success, returning a null result (never
throwing) otherwise; `createCommandBuffer` alone dispatches on the config
type to pick the concrete class but returns the constructed object
unconditionally, ignoring the result its initializer reports. -/
theorem factory_contract :
    ∀ (dev : Nat) (ok : Bool) (ty : GFXCommandBufferType),
      ((createBuffer dev ok).isSome = ok ∧
        ∀ r, createBuffer dev ok = some r → r.device = dev ∧ r.kind = ResourceKind.buffer) ∧
      ((createTexture dev ok).isSome = ok ∧
        ∀ r, createTexture dev ok = some r → r.device = dev ∧ r.kind = ResourceKind.texture) ∧
      ((createSampler dev ok).isSome = ok ∧
        ∀ r, createSampler dev ok = some r → r.device = dev ∧ r.kind = ResourceKind.sampler) ∧
      ((createDescriptorSet dev ok).isSome = ok ∧
        ∀ r, createDescriptorSet dev ok = some r → r.device = dev ∧ r.kind = ResourceKind.descriptorSet) ∧
      ((createDescriptorSetLayout dev ok).isSome = ok ∧
        ∀ r, createDescriptorSetLayout dev ok = some r → r.device = dev ∧ r.kind = ResourceKind.descriptorSetLayout) ∧
      ((createPipelineLayout dev ok).isSome = ok ∧
        ∀ r, createPipelineLayout dev ok = some r → r.device = dev ∧ r.kind = ResourceKind.pipelineLayout) ∧
      ((createPipelineState dev ok).isSome = ok ∧
        ∀ r, createPipelineState dev ok = some r → r.device = dev ∧ r.kind = ResourceKind.pipelineState) ∧
      ((createShader dev ok).isSome = ok ∧
        ∀ r, createShader dev ok = some r → r.device = dev ∧ r.kind = ResourceKind.shader) ∧
      ((createInputAssembler dev ok).isSome = ok ∧
        ∀ r, createInputAssembler dev ok = some r → r.device = dev ∧ r.kind = ResourceKind.inputAssembler) ∧
      ((createRenderPass dev ok).isSome = ok ∧
        ∀ r, createRenderPass dev ok = some r → r.device = dev ∧ r.kind = ResourceKind.renderPass) ∧
      ((createFramebuffer dev ok).isSome = ok ∧
        ∀ r, createFramebuffer dev ok = some r → r.device = dev ∧ r.kind = ResourceKind.framebuffer) ∧
      ((createFence dev ok).isSome = ok ∧
        ∀ r, createFence dev ok = some r → r.device = dev ∧ r.kind = ResourceKind.fence) ∧
      ((createQueue dev ok).isSome = ok ∧
        ∀ r, createQueue dev ok = some r → r.device = dev ∧ r.kind = ResourceKind.queue) ∧
      ((createCommandBuffer dev ty ok).isSome = true ∧
        ∀ r, createCommandBuffer dev ty ok = some r → r.device = dev ∧
          r.kind = (if ty = GFXCommandBufferType.PRIMARY then ResourceKind.primaryCommandBuffer
            else ResourceKind.commandBuffer)) := by
  intro dev ok ty
  refine ⟨ifSome_spec dev ok ResourceKind.buffer,
    ifSome_spec dev ok ResourceKind.texture,
    ifSome_spec dev ok ResourceKind.sampler,
    ifSome_spec dev ok ResourceKind.descriptorSet,
    ifSome_spec dev ok ResourceKind.descriptorSetLayout,
    ifSome_spec dev ok ResourceKind.pipelineLayout,
    ifSome_spec dev ok ResourceKind.pipelineState,
    ifSome_spec dev ok ResourceKind.shader,
    ifSome_spec dev ok ResourceKind.inputAssembler,
    ifSome_spec dev ok ResourceKind.renderPass,
    ifSome_spec dev ok ResourceKind.framebuffer,
    ifSome_spec dev ok ResourceKind.fence,
    ifSome_spec dev ok ResourceKind.queue,
    ?_⟩
  cases ty <;> simp [createCommandBuffer]

/-- C2 witness: the factory contract evaluated at concrete inputs — a
successful buffer creation yields an object bound to device 1, a failed
fence creation yields null, and a failed secondary command-buffer
creation still yields an object. -/
theorem factory_contract_witness :
    (createBuffer 1 true).isSome = true ∧
    (createFence 1 false).isSome = false ∧
    (createCommandBuffer 1 GFXCommandBufferType.SECONDARY false).isSome = true ∧
    ({ kind := ResourceKind.buffer, device := 1 } : GFXResource).device = 1 :=
  ⟨(factory_contract 1 true GFXCommandBufferType.SECONDARY).1.1,
   (factory_contract 1 false GFXCommandBufferType.SECONDARY).2.2.2.2.2.2.2.2.2.2.2.1.1,
   (factory_contract 1 false GFXCommandBufferType.SECONDARY).2.2.2.2.2.2.2.2.2.2.2.2.2.1,
   ((factory_contract 1 true GFXCommandBufferType.SECONDARY).1.2
     { kind := ResourceKind.buffer, device := 1 } rfl).1⟩

/-- C3 counterexample: after a successful initialization in which only
the linear-filtering float extension resolves, the TEXTURE_FLOAT_LINEAR
feature flag is true while the TEXTURE_FLOAT base flag is false —
refuting the claim that a linear-filtering flag is never true while its
base-format flag is false for all resolved handle sets. -/
theorem linearFlag_without_base :
    (initDevice cfg0 envLinearOnly).1 = true ∧
    (initDevice cfg0 envLinearOnly).2.features.TEXTURE_FLOAT_LINEAR = true ∧
    (initDevice cfg0 envLinearOnly).2.features.TEXTURE_FLOAT = false :=
  ⟨rfl, rfl, rfl⟩

/-- C3 (amended): after `initialize` completes, each texture-float family
feature flag equals the presence of its own resolved extension handle —
the linear-filtering flags are not gated on the base-format flags — so
the no-linear-without-base invariant holds exactly for those resolved
handle sets that contain the base extension whenever they contain the
linear-filtering variant. -/
theorem textureFloat_flags_independent :
    ∀ (info : IGFXDeviceInfo) (env : InitEnv),
      env.contextOutcome = ContextOutcome.ok →
      ((initDevice info env).2.features.TEXTURE_FLOAT_LINEAR =
          (initDevice info env).2.handles.OES_texture_float_linear.isSome ∧
        (initDevice info env).2.features.TEXTURE_FLOAT =
          (initDevice info env).2.handles.OES_texture_float.isSome ∧
        (initDevice info env).2.features.TEXTURE_HALF_FLOAT_LINEAR =
          (initDevice info env).2.handles.OES_texture_half_float_linear.isSome ∧
        (initDevice info env).2.features.TEXTURE_HALF_FLOAT =
          (initDevice info env).2.handles.OES_texture_half_float.isSome) ∧
      (((initDevice info env).2.handles.OES_texture_float_linear.isSome = true →
          (initDevice info env).2.handles.OES_texture_float.isSome = true) →
        ((initDevice info env).2.features.TEXTURE_FLOAT_LINEAR = true →
          (initDevice info env).2.features.TEXTURE_FLOAT = true)) ∧
      (((initDevice info env).2.handles.OES_texture_half_float_linear.isSome = true →
          (initDevice info env).2.handles.OES_texture_half_float.isSome = true) →
        ((initDevice info env).2.features.TEXTURE_HALF_FLOAT_LINEAR = true →
          (initDevice info env).2.features.TEXTURE_HALF_FLOAT = true)) := by
  intro info env h
  obtain ⟨co, f, db, sb, p, qok, t2, tc⟩ := env
  cases co
  · simp at h
  · simp at h
  · exact ⟨⟨rfl, rfl, rfl, rfl⟩,
      fun himp hl => himp hl,
      fun himp hl => himp hl⟩

/-- C3 witness: the amended flag/handle correspondence evaluated on a
concrete successful initialization with no extensions resolved. -/
theorem textureFloat_flags_independent_witness :
    (initDevice cfg0 envTexFail).2.features.TEXTURE_FLOAT =
      (initDevice cfg0 envTexFail).2.handles.OES_texture_float.isSome :=
  (textureFloat_flags_independent cfg0 envTexFail rfl).1.2.1
